import Mathlib

/-!
Verification of the os-brick-go Fibre-Channel connector against its
natural-language specification.  The Go sources are shallowly embedded:
pure string processing becomes Lean functions over `String`/`List Char`,
external effects (filesystem stats, symlink resolution, command output)
become explicit function parameters, and the Go `(value, error)` returns
become `Except String _`.
-/

deriving instance DecidableEq for Except

namespace OsBrick

/-! ### Generic string helpers mirroring the Go standard library -/

/-- Go `strings.Split(s, sep)` for a one-character separator, over char
lists.  Every occurrence of `sep` splits; empty fields are kept; the
result is always non-empty (Go returns `[""]` for the empty string). -/
def splitChar (sep : Char) : List Char → List (List Char)
  | [] => [[]]
  | c :: rest =>
    if c = sep then [] :: splitChar sep rest
    else
      match splitChar sep rest with
      | [] => [[c]]
      | h :: t => (c :: h) :: t

/-- `splitChar` on a `String`, producing `String` fields. -/
def goSplit (sep : Char) (s : String) : List String :=
  (splitChar sep s.toList).map fun l => ⟨l⟩

/-- Go `strings.Contains(hay, needle)` over char lists. -/
def containsSubL (hay needle : List Char) : Bool :=
  match hay with
  | [] => needle.isEmpty
  | _ :: t => needle.isPrefixOf hay || containsSubL t needle

/-- Go `strings.Contains` on strings. -/
def containsSub (hay needle : String) : Bool :=
  containsSubL hay.toList needle.toList

/-- Go `strings.TrimSpace`: drop leading and trailing whitespace. -/
def goTrimSpace (s : String) : String :=
  ⟨((s.toList.dropWhile Char.isWhitespace).reverse.dropWhile
      Char.isWhitespace).reverse⟩

/-- Decimal value of an ASCII digit character. -/
def digitVal (c : Char) : Nat := c.toNat - 48

/-- Accumulate a digit list (most significant first) into a `Nat`. -/
def digitsToNat (ds : List Char) : Nat :=
  ds.foldl (fun acc c => acc * 10 + digitVal c) 0

/-- Go `strconv.Atoi` over char lists: an optional sign followed by one
or more digits; anything else is a parse error (`none`).  (Overflow of
64-bit ints is not modelled; all inputs of interest are small.) -/
def goAtoiL : List Char → Option Int
  | [] => none
  | '+' :: rest =>
    if rest.isEmpty || !rest.all Char.isDigit then none
    else some (digitsToNat rest : Int)
  | '-' :: rest =>
    if rest.isEmpty || !rest.all Char.isDigit then none
    else some (-(digitsToNat rest : Int))
  | cs =>
    if cs.all Char.isDigit then some (digitsToNat cs : Int) else none

/-- Go `strconv.Atoi` on a `String`. -/
def goAtoi (s : String) : Option Int := goAtoiL s.toList

/-- Lowercase hex digit, as produced by the Go `%x` verb. -/
def hexChar (n : Nat) : Char :=
  match n with
  | 0 => '0' | 1 => '1' | 2 => '2' | 3 => '3' | 4 => '4'
  | 5 => '5' | 6 => '6' | 7 => '7' | 8 => '8' | 9 => '9'
  | 10 => 'a' | 11 => 'b' | 12 => 'c' | 13 => 'd' | 14 => 'e'
  | _ => 'f'

/-- Go `fmt.Sprintf("%04x", n)` for `n < 2^16` (every operand the code
formats this way is first masked with `0xffff`, so the width is exactly
four digits). -/
def padHex4 (n : Nat) : String :=
  ⟨[hexChar (n / 4096 % 16), hexChar (n / 256 % 16),
    hexChar (n / 16 % 16), hexChar (n % 16)]⟩

/-! ### The bounded-retry primitive (`RunWithRetry`, part_000)

`RunWithRetry(maxRetry, interval, exec)` runs `exec(1)` immediately; on
failure it loops on a ticker: if `tries >= maxRetry` it gives up, else it
runs `exec(tries)` again and increments `tries`.  Real time is erased;
the attempt counter sequence (1, 1, 2, …, maxRetry-1) is kept as the
code produces it. -/

/-- The ticker loop of `RunWithRetry`; `fuel` bounds the iteration count
(the Go loop terminates after at most `maxRetry` ticks). -/
def runRetryLoop (maxRetry : Nat) (f : Nat → Bool) : Nat → Nat → Bool
  | _, 0 => false
  | tries, fuel + 1 =>
    if maxRetry ≤ tries then false
    else if f tries then true
    else runRetryLoop maxRetry f (tries + 1) fuel

/-- `RunWithRetry` with time erased: the immediate first attempt, then
the bounded ticker loop. -/
def RunWithRetry (maxRetry : Nat) (f : Nat → Bool) : Bool :=
  f 1 || runRetryLoop maxRetry f 1 maxRetry

/-! ### LUN normalization (`formatLunID` / `ProcessLunID`, linuxscsi.go) -/

/-- A dynamically-typed LUN value (`interface{}` in Go): an int, a
string, or some other type. -/
inductive LunVal where
  | int (n : Int)
  | str (s : String)
  | other
deriving DecidableEq, Repr

/-- A normalized LUN as `formatLunID` returns it: either the int or the
extended-form hex string. -/
inductive LunOut where
  | int (n : Int)
  | str (s : String)
deriving DecidableEq, Repr

/-- `formatLunID` (linuxscsi.go): an int below 256 is kept; an int from
256 up is encoded as `0x%04x%04x00000000` from its low 16 bits and next
16 bits; a string is parsed with `strconv.Atoi` and the parsed int is
returned as-is; anything else is an error. -/
def formatLunID : LunVal → Except String LunOut
  | .int lunID =>
    if lunID < 256 then .ok (.int lunID)
    else
      .ok (.str ("0x" ++ padHex4 (lunID.toNat &&& 0xffff)
        ++ padHex4 ((lunID.toNat >>> 16) &&& 0xffff) ++ "00000000"))
  | .str s =>
    match goAtoi s with
    | none => .error ("lun_id cannot convert to int: " ++ s)
    | some i => .ok (.int i)
  | .other => .error "lun_id should be int value"

/-- Argument shape of `ProcessLunID`: a single value or a list
(`[]interface{}` in Go). -/
inductive LunIDs where
  | one (v : LunVal)
  | many (l : List LunVal)
deriving Repr

/-- `ProcessLunID` (linuxscsi.go): format a single LUN, or each LUN of a
list, stopping at the first error. -/
def ProcessLunID : LunIDs → Except String (LunOut ⊕ List LunOut)
  | .one v => (formatLunID v).map Sum.inl
  | .many l => (l.mapM formatLunID).map Sum.inr

/-! ### Property normalization (`addTargetsToConnectionProperties`) -/

/-- A Target is the ordered pair (WWPN, LUN), both strings
(`type Target [2]string` in the Go sources). -/
abbrev Target := String × String

/-- A dynamically-typed descriptor field that the Go code inspects with
type switches: absent, a string, a string list, or some other type. -/
inductive StrField where
  | missing
  | str (s : String)
  | strList (l : List String)
  | other
deriving Repr

/-- The connection-descriptor fields consulted by
`addTargetsToConnectionProperties`.  (`target_wwns`/`target_luns` are
asserted to `[]string` in Go, so they are typed lists here; `nil` is
`none`.) -/
structure ConnDescriptor where
  targetWwn : StrField
  targetWwns : Option (List String)
  targetLun : StrField
  targetLuns : Option (List String)

/-- The WWN list resolution of `addTargetsToConnectionProperties`:
`target_wwns` wins when present; otherwise `target_wwn` as a list, a
singleton string, or empty. -/
def resolveWwns (d : ConnDescriptor) : List String :=
  match d.targetWwns with
  | some l => l
  | none =>
    match d.targetWwn with
    | .strList l => l
    | .str s => [s]
    | _ => []

/-- The LUN list resolution of `addTargetsToConnectionProperties`:
`target_luns` wins when present; otherwise `target_lun` only if it is a
string (a non-string single LUN yields the empty list). -/
def resolveLuns (d : ConnDescriptor) : List String :=
  match d.targetLuns with
  | some l => l
  | none =>
    match d.targetLun with
    | .str s => [s]
    | _ => []

/-- The cardinality core of `addTargetsToConnectionProperties`
(linuxscsi.go): lower-case the WWNs, then zip when the lists have equal
non-zero length, broadcast a single LUN over several WWNs, and fail
(`none`) otherwise. -/
def addTargets (wwns luns : List String) : Option (List Target) :=
  let lowWwns := wwns.map (fun w => w.toLower)
  if luns.length = lowWwns.length ∧ 0 < luns.length then
    some (lowWwns.zip luns)
  else if luns.length = 1 ∧ 1 < lowWwns.length then
    some (lowWwns.map (fun w => (w, luns.headD "")))
  else
    none

/-- `addTargetsToConnectionProperties`, field resolution plus the
cardinality core.  (The derived `initiator_target_lun_map` augmentation
is not modelled; it never affects the `targets` list or the error.) -/
def addTargetsToConnectionProperties (d : ConnDescriptor) :
    Option (List Target) :=
  addTargets (resolveWwns d) (resolveLuns d)

/-! ### Flush-necessity policy (`RequiresFlush`, linuxscsi.go)

`filepath.EvalSymlinks` is modelled as a function
`String → Option String` (`none` = resolution error). -/

/-- The directory part of Go `path/filepath.Split`: everything up to and
including the final separator (so it carries a trailing `/`, unlike
`os.path.dirname` in Python). -/
def goSplitDir (p : String) : String :=
  ⟨(p.toList.reverse.dropWhile (fun c => c ≠ '/')).reverse⟩

/-- `RequiresFlush` (linuxscsi.go): false when no path was used or
multipath was used; otherwise resolve both paths and return
`rPathUsed == rPath || dir(rPathUsed) != "/dev"` where `dir` is Go
the directory part of Go `filepath.Split`. -/
def RequiresFlush (evalSymlinks : String → Option String)
    (devicePath pathUsed : String) (wasMultipath : Bool) :
    Except String Bool :=
  if pathUsed = "" ∨ wasMultipath = true then .ok false
  else
    match evalSymlinks devicePath with
    | none => .error ("failed get realpath for path:" ++ devicePath)
    | some rPath =>
      match evalSymlinks pathUsed with
      | none => .error ("failed get realpath for path:" ++ pathUsed)
      | some rPathUsed =>
        .ok ((rPathUsed == rPath) || (goSplitDir rPathUsed != "/dev"))

/-- The flush policy as the claim words it, for comparison with
`RequiresFlush`: after the same two guards, flush is required unless the
real target of the used path is identical to that of the candidate AND
resides directly under the `/dev` device root. -/
def requiresFlushSpec (evalSymlinks : String → Option String)
    (devicePath pathUsed : String) (wasMultipath : Bool) :
    Except String Bool :=
  if pathUsed = "" ∨ wasMultipath = true then .ok false
  else
    match evalSymlinks devicePath with
    | none => .error ("failed get realpath for path:" ++ devicePath)
    | some rPath =>
      match evalSymlinks pathUsed with
      | none => .error ("failed get realpath for path:" ++ pathUsed)
      | some rPathUsed =>
        .ok (!((rPathUsed == rPath) && (goSplitDir rPathUsed == "/dev/")))

/-! ### Multipath screen-scraping (`FindMultipathDevice`, linuxscsi.go) -/

/-- One member leg of a multipath map, as `FindMultipathDevice` builds it
(`MultipathDevice` is `map[string]string` in Go; it always holds exactly
these five keys). -/
structure MultipathLeg where
  device : String
  host : String
  channel : String
  id : String
  lun : String
deriving DecidableEq, Repr

/-- The map `FindMultipathDevice` returns on success. -/
structure MPathInfo where
  device : String
  id : String
  name : String
  devices : List MultipathLeg
deriving DecidableEq, Repr

/-- `MultipathDeviceActions` (part_000): the action keywords a
`multipath -l` header line may start with. -/
def MultipathDeviceActions : List String :=
  ["unchanged:", "reject:", "reload:", "switchpg:", "rename:",
   "create:", "resize:"]

/-- Go `\w`: ASCII letter, digit or underscore. -/
def isWordChar (c : Char) : Bool := c.isAlphanum || c = '_'

/-- Tail of `MultipathErrorRegex` after the three word chars and space:
`\d+ \d\d:\d\d:\d\d \|.*$`.  The digit run is maximal (a shorter run
cannot be followed by the required space). -/
def matchErrTail (cs : List Char) : Bool :=
  let ds := cs.takeWhile Char.isDigit
  let rest := cs.dropWhile Char.isDigit
  !ds.isEmpty &&
    match rest with
    | ' ' :: d1 :: d2 :: ':' :: d3 :: d4 :: ':' :: d5 :: d6 :: ' ' :: '|' :: tl =>
      d1.isDigit && d2.isDigit && d3.isDigit && d4.isDigit &&
        d5.isDigit && d6.isDigit && tl.all (fun c => c ≠ '\n')
    | _ => false

/-- `MultipathErrorRegex` (`\w{3} \d+ \d\d:\d\d:\d\d \|.*$`) matched at
one position. -/
def matchErrAt : List Char → Bool
  | a :: b :: c :: ' ' :: rest =>
    isWordChar a && isWordChar b && isWordChar c && matchErrTail rest
  | _ => false

/-- Go `regexp.MatchString` of `MultipathErrorRegex`: an unanchored
search over every start position. -/
def matchesMultipathErrorRegex (l : String) : Bool :=
  l.toList.tails.any matchErrAt

/-- `MultipathWWIDRegex` (`\((?P<wwid>.+)\)`) applied with
`FindStringSubmatch`: the leftmost match starts at the first `(` and the
greedy `.+` runs to the last `)`, requiring at least one character in
between. -/
def wwidSearch (s : String) : Option String :=
  match s.toList.dropWhile (fun c => c ≠ '(') with
  | [] => none
  | _ :: rest =>
    match rest.reverse.dropWhile (fun c => c ≠ ')') with
    | [] => none
    | _ :: innerRev => if innerRev.isEmpty then none else some ⟨innerRev.reverse⟩

/-- `strings.TrimLeft(l, " |-\x60")`: drop the leading tree-drawing
characters of a multipath member line. -/
def trimTreeChars (s : String) : String :=
  ⟨s.toList.dropWhile (fun c => c = ' ' || c = '|' || c = '-' || c = '\x60')⟩

/-- Parse one member leg: trim tree characters, split on single spaces;
the first token is `host:channel:id:lun`, the second the leaf device.
(Go indexes `devInfo[0]`, `devInfo[1]` and `address[0..3]` directly and
would panic on shorter input; out-of-range here yields `""`.) -/
def parseLeg (l : String) : MultipathLeg :=
  let devInfo := goSplit ' ' (trimTreeChars l)
  let address := goSplit ':' (devInfo.getD 0 "")
  { device := "/dev/" ++ devInfo.getD 1 ""
    host := address.getD 0 ""
    channel := address.getD 1 ""
    id := address.getD 2 ""
    lun := address.getD 3 "" }

/-- `FindMultipathDevice` (linuxscsi.go).  `pathExists` stands for
`osBrick.IsFileExists`; `mpOut` is the result of `multipath -l <name>`.
Empty or fully-filtered output leaves `mDev` empty and returns
`.ok none` (nil, nil in Go). -/
def FindMultipathDevice (pathExists : String → Bool)
    (mpOut : Except String String) : Except String (Option MPathInfo) :=
  match mpOut with
  | .error e => .error e
  | .ok out =>
    if out = "" then .ok none
    else
      let lines := goSplit '\x0a' (goTrimSpace out)
      let newLines :=
        lines.filter (fun l => l ≠ "" && !matchesMultipathErrorRegex l)
      if newLines.isEmpty then .ok none
      else
        let ns := goSplit ' ' (newLines.headD "")
        let first := ns.getD 0 ""
        let mDevName :=
          if MultipathDeviceActions.contains first then ns.getD 1 ""
          else first
        let mDev := "/dev/mapper/" ++ mDevName
        if !pathExists mDev then
          .error ("couldnt find multipath device " ++ mDev)
        else
          let mDevID :=
            match wwidSearch (newLines.headD "") with
            | some w => w
            | none => mDevName
          let deviceLines := newLines.drop 3
          let devices :=
            (deviceLines.filter (fun l => !containsSub l "policy")).map
              parseLeg
          .ok (some ⟨mDev, mDevID, mDevName, devices⟩)

/-! ### Multipath path wait (`WaitForPath` / `FindMultipathDevicePath`) -/

/-- `WaitForPath` (linuxscsi.go): an immediate existence check, then
`RunWithRetry(3, 1s, …)` on the same check.  The filesystem is modelled
as static within one wait, so `pathExists` does not depend on the
attempt number. -/
def WaitForPath (pathExists : String → Bool) (path : String) : Bool :=
  pathExists path || RunWithRetry 3 (fun _ => pathExists path)

/-- `FindMultipathDevicePath` (linuxscsi.go): wait for the
`dm-uuid-mpath-<wwn>` by-id symlink, then for `/dev/mapper/<wwn>`;
return the first that appears, else a not-found error. -/
def FindMultipathDevicePath (pathExists : String → Bool)
    (deviceWwn : String) : Except String String :=
  let path := "/dev/disk/by-id/dm-uuid-mpath-" ++ deviceWwn
  if WaitForPath pathExists path then .ok path
  else
    let path2 := "/dev/mapper/" ++ deviceWwn
    if WaitForPath pathExists path2 then .ok path2
    else
      .error ("couldnt find a valid multipath device path for " ++ deviceWwn)

/-! ### Write-readiness wait (`WaitForRW`, linuxscsi.go)

`lsblk` output and the `multipath -r` result are inputs; the loop walks
the split lines, takes the first and last space-separated token of each,
`Atoi`s the last, and reacts to a read-only row whose name contains the
WWN. -/

/-- The per-line loop of `WaitForRW` over already split lines. -/
def waitForRWLines (mpr : Except String String) (deviceWwn : String) :
    List (List Char) → Except String Unit
  | [] => .ok ()
  | l :: rest =>
    let parts := splitChar ' ' l
    let ro := (parts.getLast?).getD []
    let name := parts.headD []
    match goAtoiL ro with
    | none => .error ("strconv.Atoi: parsing " ++ (⟨ro⟩ : String))
    | some roi =>
      if containsSubL name deviceWwn.toList && (roi == 1) then
        match mpr with
        | .ok _ => .ok ()
        | .error e => .error e
      else waitForRWLines mpr deviceWwn rest

/-- `WaitForRW` (linuxscsi.go).  `lsblk` is the result of
`lsblk -o NAME,RO -l -n`; `mpr` the result of `multipath -r`;
`devicePath` is only logged by the Go code. -/
def WaitForRW (lsblk mpr : Except String String)
    (deviceWwn devicePath : String) : Except String Unit :=
  match lsblk with
  | .error e => .error e
  | .ok out => waitForRWLines mpr deviceWwn (splitChar '\x0a' out.toList)

/-- The write-readiness wait of `discoverMPathDevice`
(src/initiator/connectors/base.go lines 43-52): when the descriptor
carries an `access_mode` entry other than `"ro"`, retry `WaitForRW` up
to 5 times (1s spacing); the boolean outcome is only logged by the Go
code (non-fatal) and is the value returned here.  When the guard skips
the wait, no retry runs and `true` is returned. -/
def writeReadinessWait (accessMode : Option String)
    (lsblk mpr : Except String String)
    (deviceWwn devicePath : String) : Bool :=
  match accessMode with
  | some am =>
    if am != "ro" then
      RunWithRetry 5
        (fun _ => (WaitForRW lsblk mpr deviceWwn devicePath).toBool)
    else true
  | none => true

/-! ### Multipath discovery for ConnectVolume (`discoverMPathDevice`) -/

/-- `discoverMPathDevice` (src/initiator/connectors/base.go lines
16-55).  It first runs the WWN-based symlink wait
(`FindMultipathDevicePath`) and RETURNS ITS ERROR unchanged when the
wait misses (base.go lines 17-20); only when that call succeeds with an
empty path — which `FindMultipathDevicePath` never produces — would the
fallback run: resolve the raw device name (`filepath.EvalSymlinks`,
error propagated), screen-scrape with `FindMultipathDevice`, take the
mapper device with the WWN as multipath id when found, else the raw
device name with an empty id.  Every success then passes through the
guarded, non-fatal write-readiness wait (`writeReadinessWait`), whose
outcome is only logged.  `mpOutFor` gives the `multipath -l` output per
real device path. -/
def discoverMPathDevice (pathExists : String → Bool)
    (evalSymlinks : String → Option String)
    (mpOutFor : String → Except String String)
    (accessMode : Option String) (lsblk mpr : Except String String)
    (deviceWwn deviceName : String) :
    Except String (String × String) :=
  match FindMultipathDevicePath pathExists deviceWwn with
  | .error e => .error e
  | .ok path =>
    let next : Except String (String × String) :=
      if path = "" then
        match evalSymlinks deviceName with
        | none => .error ("failed to eval symlinks for " ++ deviceName)
        | some deviceRealPath =>
          match FindMultipathDevice pathExists (mpOutFor deviceRealPath) with
          | .ok (some info) => .ok (info.device, deviceWwn)
          | .ok none => .ok (deviceName, "")
          | .error _ => .ok (deviceName, "")
      else .ok (path, deviceWwn)
    match next with
    | .error e => .error e
    | .ok r =>
      let _ := writeReadinessWait accessMode lsblk mpr deviceWwn r.1
      .ok r

/-! ### The DisconnectVolume candidate loop (linuxscsi.go lines 669-693)

External effects of the loop are an environment record; the embedding
returns the multipath flush calls made and the device records collected,
which is what the claims observe. -/

/-- Environment of the DisconnectVolume loop: `GetNameFromPath` (symlink
resolution collapsed to `""` on failure, as the Go helper does),
`CheckValidDevice`, `GetSCSIWWN`, `IsFileExists`, and `GetDeviceInfo`
(collapsed to an opaque record label). -/
structure DisconnectEnv where
  getName : String → String
  checkValid : String → Bool
  getWwn : String → Except String String
  pathExists : String → Bool
  getDeviceInfo : String → Except String String

/-- The `for _, path := range volumePaths` loop of `DisconnectVolume`:
`mPathPath` is the loop-carried mapper path (initially empty at the call
site); the result is (flush calls, collected device records).  The
guard requires `mPathPath != ""`; inside it, a `GetSCSIWWN` or
`FindMultipathDevicePath` failure `continue`s (the latter after
assigning `mPathPath` its `""` error value). -/
def disconnectLoop (env : DisconnectEnv) (useMultipath : Bool) :
    String → List String → List String × List String
  | _, [] => ([], [])
  | mPathPath, path :: rest =>
    let realPath := env.getName path
    if useMultipath && (mPathPath != "") && env.checkValid path then
      match env.getWwn path with
      | .error _ => disconnectLoop env useMultipath mPathPath rest
      | .ok wwn =>
        match FindMultipathDevicePath env.pathExists wwn with
        | .error _ => disconnectLoop env useMultipath "" rest
        | .ok mp =>
          let tail :=
            match env.getDeviceInfo realPath with
            | .error _ => disconnectLoop env useMultipath mp rest
            | .ok rec =>
              let t := disconnectLoop env useMultipath mp rest
              (t.1, rec :: t.2)
          if mp != "" then (mp :: tail.1, tail.2) else tail
    else
      match env.getDeviceInfo realPath with
      | .error _ => disconnectLoop env useMultipath mPathPath rest
      | .ok rec =>
        let t := disconnectLoop env useMultipath mPathPath rest
        (t.1, rec :: t.2)

/-- The flush calls `DisconnectVolume` makes over its candidate paths:
the loop starts with `mPathPath := ""`. -/
def DisconnectVolumeFlushes (env : DisconnectEnv) (useMultipath : Bool)
    (volumePaths : List String) : List String :=
  (disconnectLoop env useMultipath "" volumePaths).1

/-! ### Host rescans (`RescanHosts`, part_000 lines 253-343)

the sysfs/grep results of `getHBAChannelSCSITargetLun` are inputs: each HBA
comes with the (channel, target, lun) triples it resolved and the LUNs
it did not find (Go iterates the not-found map; the model keeps a list).
The observable output is the ordered list of writes to the
`/sys/class/scsi_host/<host>/scan` control files. -/

/-- A (channel, target id, lun) triple. -/
abbrev Ctl := String × String × String

/-- One HBA as `RescanHosts` sees it: its `host_device` name plus what the
environment answers for it. -/
structure ScanHBA where
  hostDevice : String
  ctls : List Ctl
  wildLuns : List String
deriving Repr

/-- The wildcard triples built for unresolved LUNs: `("-", "-", lun)`. -/
def wildcardCtls (luns : List String) : List Ctl :=
  luns.map (fun l => ("-", "-", l))

/-- The writes the inner `for _, p := range process` loop performs for
one traversal of the `process` list. -/
def processWrites (entries : List (String × List Ctl)) :
    List (String × String) :=
  entries.flatMap (fun e =>
    e.2.map (fun c =>
      ("/sys/class/scsi_host/" ++ e.1 ++ "/scan",
       c.1 ++ " " ++ c.2.1 ++ " " ++ c.2.2)))

/-- The per-HBA loop of `RescanHosts`, carrying the `process` and
`skipped` slices exactly as the Go code updates them: an HBA with
triples is appended to `process`; one without is appended to `skipped`
(as wildcards) only when broad scanning is allowed and `process` is
still empty; then `process` falls back to `skipped` when empty — and the
write loop over the whole current `process` runs INSIDE this per-HBA
loop, as in the source. -/
def rescanAux (broadScan : Bool) :
    List (String × List Ctl) → List (String × List Ctl) → List ScanHBA →
    List (String × String)
  | _, _, [] => []
  | process, skipped, hba :: rest =>
    let process1 :=
      if !hba.ctls.isEmpty then process ++ [(hba.hostDevice, hba.ctls)]
      else process
    let skipped1 :=
      if !hba.ctls.isEmpty then skipped
      else if !broadScan then skipped
      else if process.isEmpty then
        skipped ++ [(hba.hostDevice, wildcardCtls hba.wildLuns)]
      else skipped
    let process2 := if process1.isEmpty then skipped1 else process1
    processWrites process2 ++ rescanAux broadScan process2 skipped1 rest

/-- `RescanHosts` (part_000): scan-file writes produced over the HBAs,
starting from empty `process`/`skipped`.  `broadScan` is the
`enable_wildcard_scan` value (default true). -/
def RescanHosts (broadScan : Bool) (hbas : List ScanHBA) :
    List (String × String) :=
  rescanAux broadScan [] [] hbas

/-! ### The ConnectVolume polling loop (connectors, lines 592-606)

The loop body checks each candidate for existence and raw-read
validity (`IsFileExists(dev) && CheckValidDevice(dev)` — combined into
one attempt-indexed environment predicate) and rescans on failure;
`RunWithRetry(DeviceScanAttemptsDefault, 5s, …)` drives it.  A trace of
events makes the claimed ordering provable. -/

/-- `DeviceScanAttemptsDefault` (part_000). -/
def DeviceScanAttemptsDefault : Nat := 3

/-- Events of the ConnectVolume polling loop. -/
inductive FCEvent where
  | check (attempt : Nat) (dev : String) (ok : Bool)
  | rescan (attempt : Nat)
  | found (dev : String)
deriving DecidableEq, Repr

/-- One pass over the candidate list within attempt `att`: emit a check
event per device until the first valid one (the Go loop returns there,
skipping the rest). -/
def checkDevs (env : Nat → String → Bool) (att : Nat) :
    List String → List FCEvent × Option String
  | [] => ([], none)
  | d :: rest =>
    if env att d then ([FCEvent.check att d true], some d)
    else
      let t := checkDevs env att rest
      (FCEvent.check att d false :: t.1, t.2)

/-- The retried loop: run the candidate pass; on success stop; on
failure emit the rescan (the loop body calls `RescanHosts` before
returning false) and recurse into the next attempt while fuel lasts. -/
def connectLoop (env : Nat → String → Bool) (devs : List String) :
    Nat → Nat → List FCEvent × Option String
  | _, 0 => ([], none)
  | att, fuel + 1 =>
    let c := checkDevs env att devs
    match c.2 with
    | some d => (c.1 ++ [FCEvent.found d], some d)
    | none =>
      let t := connectLoop env devs (att + 1) fuel
      (c.1 ++ FCEvent.rescan att :: t.1, t.2)

/-- The device-search phase of `ConnectVolume`: the polling loop with
`DeviceScanAttemptsDefault` attempts; exhaustion yields the
device-not-found error the Go code returns. -/
def connectVolumeScan (env : Nat → String → Bool) (devs : List String) :
    List FCEvent × Except String String :=
  let t := connectLoop env devs 1 DeviceScanAttemptsDefault
  (t.1, match t.2 with
    | some d => .ok d
    | none => .error "fibre Channel volume device not found")

/-- Is an event a rescan? -/
def isRescanEv : FCEvent → Bool
  | .rescan _ => true
  | _ => false

/-- Number of rescans in a trace. -/
def rescanCount (evs : List FCEvent) : Nat :=
  (evs.filter isRescanEv).length

/-! ### Validation prefixes of the three entry points (C8)

Each entry point first normalizes the descriptor and computes candidate
paths; these models follow each function up to the point where a
validation failure is decided, and report how it terminates.  LUN
normalization failures surface inside `getHostDevices` via
`ProcessLunID`, reached through as many candidate tuples as there are
HBAs with a PCI number (`pciNums`) crossed with targets. -/

/-- How a Go call ends: proceeds past validation, returns an error, or
panics. -/
inductive GoOutcome where
  | proceed
  | err (msg : String)
  | panic (msg : String)
deriving DecidableEq, Repr

/-- The validation error text of `addTargetsToConnectionProperties`. -/
def valErrMsg : String :=
  "unable to find potential volume paths for FC device"

/-- `getPossibleDevices` (connectors): cross each HBA PCI number with
every target, prefixing `0x` to the lower-cased WWN. -/
def getPossibleDevices (pciNums : List String) (ts : List Target) :
    List (String × String × String) :=
  pciNums.flatMap (fun p =>
    ts.map (fun t => (p, "0x" ++ t.1.toLower, t.2)))

/-- The error behaviour of `getHostDevices` (connectors): it fails
exactly when `ProcessLunID` rejects the LUN of some candidate (the by-path
prefix probing affects only the synthesized paths, never the error). -/
def getHostDevicesCheck :
    List (String × String × String) → Except String Unit
  | [] => .ok ()
  | d :: rest =>
    match ProcessLunID (.one (.str d.2.2)) with
    | .error e => .error e
    | .ok _ => getHostDevicesCheck rest

/-- The validation prefix of `ConnectVolume`: a normalization failure is
returned to the caller at once (before the retry loop); a LUN parse
failure from `getPossibleVolumePaths` likewise. -/
def connectVolumeFront (pciNums wwns luns : List String) : GoOutcome :=
  match addTargets wwns luns with
  | none => .err valErrMsg
  | some ts =>
    match getHostDevicesCheck (getPossibleDevices pciNums ts) with
    | .error e => .err e
    | .ok _ => .proceed

/-- The validation prefix of `DisconnectVolume`: a normalization failure is
only logged; the code then indexes the nil normalized map and runs an
unchecked `.([]initiator.Target)` type assertion on the nil entry,
which panics.  A LUN parse failure from `GetVolumePaths` is returned
wrapped. -/
def disconnectVolumeFront (pciNums wwns luns : List String) : GoOutcome :=
  match addTargets wwns luns with
  | none => .panic "interface conversion on nil targets entry"
  | some ts =>
    match getHostDevicesCheck (getPossibleDevices pciNums ts) with
    | .error e => .err ("failed get volume paths: " ++ e)
    | .ok _ => .proceed

/-- The validation prefix of `ExtendVolume`: both failure modes are returned
wrapped. -/
def extendVolumeFront (pciNums wwns luns : List String) : GoOutcome :=
  match addTargets wwns luns with
  | none => .err ("failed add targets to connection properties:" ++ valErrMsg)
  | some ts =>
    match getHostDevicesCheck (getPossibleDevices pciNums ts) with
    | .error e => .err ("failed get volume paths: " ++ e)
    | .ok _ => .proceed

/-! ### Concrete sample inputs used by the claim theorems -/

/-- A `multipath -l` block with an action-prefixed header, a
parenthesized WWID, and three member legs. -/
def sampleMpOut : String :=
  "reload: mpath36 (3624a93709a738ed78583fd1200139) dm-2 PURE,FlashArray\x0a"
  ++ "size=3.0T features=0 hwhandler=1 wp=rw\x0a"
  ++ "\x60-+- policy=queue-length prio=0 status=active\x0a"
  ++ "  |- 3:0:0:1 sdb 8:16 active undef running\x0a"
  ++ "  |- 4:0:0:1 sdc 8:32 active undef running\x0a"
  ++ "  \x60- 5:0:0:1 sdd 8:48 active undef running"

/-- The same block with no parenthesized WWID on the header. -/
def sampleMpOut2 : String :=
  "create: mpath37 dm-3 PURE,FlashArray\x0a"
  ++ "size=3.0T features=0 hwhandler=1 wp=rw\x0a"
  ++ "\x60-+- policy=queue-length prio=0 status=active\x0a"
  ++ "  |- 3:0:0:2 sde 8:64 active undef running\x0a"
  ++ "  |- 4:0:0:2 sdf 8:80 active undef running\x0a"
  ++ "  \x60- 5:0:0:2 sdg 8:96 active undef running"

/-- A filesystem where exactly the two sample mapper devices exist. -/
def peC9 : String → Bool := fun p =>
  p == "/dev/mapper/mpath36" || p == "/dev/mapper/mpath37"

/-- A symlink map where `/dev/sda` resolves to itself. -/
def envC3 : String → Option String := fun p =>
  if p == "/dev/sda" then some "/dev/sda" else none

/-- A symlink map where a by-id path resolves to `/dev/sda`. -/
def envC3w : String → Option String := fun p =>
  if p == "/dev/disk/by-id/x" then some "/dev/sda"
  else if p == "/dev/sda" then some "/dev/sda" else none

/-- A DisconnectVolume environment where the single candidate path
exists, resolves, passes the raw-read validity probe, yields a WWN, and
its mapper symlink exists — everything the claimed flush needs. -/
def envC2 : DisconnectEnv where
  getName := fun _ => "/dev/sdb"
  checkValid := fun _ => true
  getWwn := fun _ => .ok "3624a9"
  pathExists := fun _ => true
  getDeviceInfo := fun p => .ok p

/-- The candidate path used in the C2 counterexample. -/
def pathC2 : String := "/dev/disk/by-path/pci-0000:05:00.3-fc-0x50-lun-1"

/-! ### Helper lemmas -/

/-- A check that fails at every attempt makes the ticker loop fail. -/
theorem runRetryLoop_const_false (maxRetry : Nat) (f : Nat → Bool)
    (hf : ∀ n, f n = false) :
    ∀ tries fuel, runRetryLoop maxRetry f tries fuel = false := by
  intro tries fuel
  induction fuel generalizing tries with
  | zero => rfl
  | succ fuel ih =>
    simp only [runRetryLoop, hf]
    split <;> simp [ih]

/-- A check that fails at every attempt makes `RunWithRetry` fail. -/
theorem RunWithRetry_const_false (maxRetry : Nat) (f : Nat → Bool)
    (hf : ∀ n, f n = false) : RunWithRetry maxRetry f = false := by
  simp [RunWithRetry, hf, runRetryLoop_const_false maxRetry f hf]

/-- A path the filesystem never shows is not found by `WaitForPath`. -/
theorem WaitForPath_false (pathExists : String → Bool) (path : String)
    (h : pathExists path = false) : WaitForPath pathExists path = false := by
  simp [WaitForPath, h,
    RunWithRetry_const_false 3 (fun _ => false) (fun _ => rfl)]

/-- The head of a non-empty `dropWhile` result falsifies the predicate. -/
theorem dropWhile_head_false (p : Char → Bool) :
    ∀ (l : List Char) c t, l.dropWhile p = c :: t → p c = false := by
  intro l
  induction l with
  | nil => intro c t h; simp [List.dropWhile] at h
  | cons a l ih =>
    intro c t h
    by_cases hp : p a
    · rw [List.dropWhile_cons_of_pos hp] at h; exact ih c t h
    · rw [List.dropWhile_cons_of_neg hp] at h
      cases h
      simpa using hp

/-- The directory part `filepath.Split` returns is empty or ends with a
separator, so it is never the bare string `/dev`. -/
theorem goSplitDir_ne_dev (s : String) : goSplitDir s ≠ "/dev" := by
  intro h
  have hd : (s.toList.reverse.dropWhile (fun c => c ≠ '/')).reverse
      = "/dev".toList := congrArg String.toList h
  rcases he : s.toList.reverse.dropWhile (fun c => c ≠ '/') with _ | ⟨c, t⟩
  · rw [he] at hd
    simp at hd
  · have hc : c = '/' := by
      have := dropWhile_head_false (fun c => c ≠ '/') _ c t he
      simpa using this
    rw [he] at hd
    have hl : ((c :: t).reverse).getLast? = some c := by
      simp [List.reverse_cons, List.getLast?_concat]
    rw [hd] at hl
    rw [hc] at hl
    simp at hl

/-- `String.toList` distributes over append. -/
theorem string_toList_append (s t : String) :
    (s ++ t).toList = s.toList ++ t.toList := by
  cases s; cases t; rfl

/-- A successful `FindMultipathDevicePath` never returns the empty
path: both success branches return a path with a non-empty prefix. -/
theorem FindMultipathDevicePath_ok_ne (pathExists : String → Bool)
    (deviceWwn p : String)
    (h : FindMultipathDevicePath pathExists deviceWwn = .ok p) :
    p ≠ "" := by
  simp only [FindMultipathDevicePath] at h
  split at h
  · cases h
    intro he
    have h2 := congrArg String.toList he
    rw [string_toList_append] at h2
    rcases List.append_eq_nil.mp h2 with ⟨h3, _⟩
    exact absurd h3 (by decide)
  · split at h
    · cases h
      intro he
      have h2 := congrArg String.toList he
      rw [string_toList_append] at h2
      rcases List.append_eq_nil.mp h2 with ⟨h3, _⟩
      exact absurd h3 (by decide)
    · cases h

/-- `splitChar` never returns the empty list. -/
theorem splitChar_ne_nil (sep : Char) :
    ∀ l : List Char, splitChar sep l ≠ [] := by
  intro l
  induction l with
  | nil => simp [splitChar]
  | cons c rest ih =>
    simp only [splitChar]
    split
    · simp
    · rcases hr : splitChar sep rest with _ | ⟨h, t⟩
      · simp
      · simp

/-- Appending a final separator appends a final empty field. -/
theorem splitChar_concat_sep (sep : Char) :
    ∀ l : List Char, splitChar sep (l ++ [sep]) = splitChar sep l ++ [[]] := by
  intro l
  induction l with
  | nil => simp [splitChar]
  | cons c rest ih =>
    by_cases hc : c = sep
    · subst hc
      simp [splitChar, ih]
    · simp only [List.cons_append, splitChar, if_neg hc, List.append_eq]
      rw [ih]
      rcases hr : splitChar sep rest with _ | ⟨h, t⟩
      · exact absurd hr (splitChar_ne_nil sep rest)
      · simp

/-- The read-only/name condition `WaitForRW` tests on one split line. -/
def rwRowMatches (deviceWwn : String) (l : List Char) : Prop :=
  containsSubL ((splitChar ' ' l).headD []) deviceWwn.toList = true ∧
    goAtoiL (((splitChar ' ' l).getLast?).getD []) = some 1

instance (deviceWwn : String) (l : List Char) :
    Decidable (rwRowMatches deviceWwn l) := by
  unfold rwRowMatches; infer_instance

/-- If no line matches the WWN/read-only condition, a line list ending
in the empty line makes `waitForRWLines` fail on the `Atoi`
of that empty line. -/
theorem waitForRWLines_trailing_error (mpr : Except String String)
    (deviceWwn : String) :
    ∀ lines : List (List Char),
      (∀ l ∈ lines, ¬rwRowMatches deviceWwn l) →
      ∃ e, waitForRWLines mpr deviceWwn (lines ++ [[]]) = .error e := by
  intro lines
  induction lines with
  | nil =>
    intro _
    exact ⟨_, rfl⟩
  | cons l rest ih =>
    intro hno
    rcases hat : goAtoiL (((splitChar ' ' l).getLast?).getD []) with _ | roi
    · refine ⟨"strconv.Atoi: parsing " ++
        (⟨((splitChar ' ' l).getLast?).getD []⟩ : String), ?_⟩
      simp only [List.cons_append, waitForRWLines, hat]
    · have hcond :
          (containsSubL ((splitChar ' ' l).headD []) deviceWwn.toList &&
            (roi == 1)) = false := by
        by_contra hb
        have hb' := eq_true_of_ne_false hb
        rw [Bool.and_eq_true] at hb'
        have h1 : roi = 1 := by
          have := hb'.2; simpa using this
        exact hno l (List.mem_cons_self l rest)
          ⟨hb'.1, by rw [hat, h1]⟩
      obtain ⟨e, he⟩ := ih (fun x hx => hno x (List.mem_cons_of_mem l hx))
      refine ⟨e, ?_⟩
      simp only [List.cons_append, waitForRWLines, hat, hcond,
        Bool.false_eq_true, if_false]
      simpa using he

/-- `checkDevs` emits only check events, never a rescan. -/
theorem checkDevs_no_rescan (env : Nat → String → Bool) (att : Nat) :
    ∀ devs : List String, rescanCount (checkDevs env att devs).1 = 0 := by
  intro devs
  induction devs with
  | nil => rfl
  | cons d rest ih =>
    simp only [checkDevs]
    split
    · rfl
    · simpa [rescanCount, isRescanEv] using ih

/-- A failing pass of `checkDevs` checks every candidate. -/
theorem checkDevs_none_all_checked (env : Nat → String → Bool) (att : Nat) :
    ∀ devs : List String, (checkDevs env att devs).2 = none →
      ((checkDevs env att devs).1).length = devs.length := by
  intro devs
  induction devs with
  | nil => intro _; rfl
  | cons d rest ih =>
    intro h
    simp only [checkDevs] at h ⊢
    by_cases he : env att d = true
    · rw [if_pos he] at h
      simp at h
    · rw [if_neg he] at h ⊢
      simp only at h
      simpa using ih h

/-! ### Claim theorems -/

/-- C4: for WWN/LUN lists of equal non-zero length, or multiple WWNs
with exactly one shared LUN, normalization produces exactly
`max (len wwns) (len luns)` Target pairs whose WWNs are the lower-cased
input WWNs in order; every other cardinality combination is a
validation error producing no targets. -/
theorem C4_target_normalization (wwns luns : List String) :
    (((wwns.length = luns.length ∧ wwns.length ≠ 0) ∨
        (1 < wwns.length ∧ luns.length = 1)) →
      ∃ ts, addTargets wwns luns = some ts ∧
        ts.length = max wwns.length luns.length ∧
        ts.map Prod.fst = wwns.map (fun w => w.toLower))
    ∧ (¬((wwns.length = luns.length ∧ wwns.length ≠ 0) ∨
        (1 < wwns.length ∧ luns.length = 1)) →
      addTargets wwns luns = none) := by
  have hm : (wwns.map (fun w => w.toLower)).length = wwns.length :=
    List.length_map _ _
  constructor
  · rintro (⟨heq, hne⟩ | ⟨hw, hl⟩)
    · refine ⟨(wwns.map (fun w => w.toLower)).zip luns, ?_, ?_, ?_⟩
      · simp only [addTargets]
        rw [if_pos ⟨by omega, by omega⟩]
      · rw [List.length_zip, hm]
        omega
      · exact List.map_fst_zip _ _ (by omega)
    · refine ⟨(wwns.map (fun w => w.toLower)).map
        (fun w => (w, luns.headD "")), ?_, ?_, ?_⟩
      · simp only [addTargets]
        rw [if_neg (by omega), if_pos ⟨by omega, by omega⟩]
      · simp only [List.length_map]
        omega
      · rw [List.map_map]
        simp [Function.comp]
  · intro hneg
    simp only [addTargets]
    rw [if_neg (by omega), if_neg (by omega)]

/-- C4 witness: two WWNs sharing one LUN normalize to two lower-cased
targets. -/
theorem C4_target_normalization_witness :
    ∃ ts, addTargets ["20210002AC00383D", "20220002AC00383D"] ["1"]
        = some ts ∧
      ts.length = max 2 1 ∧
      ts.map Prod.fst =
        ["20210002AC00383D", "20220002AC00383D"].map (fun w => w.toLower) :=
  (C4_target_normalization ["20210002AC00383D", "20220002AC00383D"]
    ["1"]).1 (by decide)

/-- C5 counterexample: the integer LUN 300 maps to
`"0x012c000000000000"` (300 = 0x12c), not to the claimed
`"0x002c000000000000"`; and the numeric string `"300"`, although ≥ 256,
is returned as the plain integer 300, not as the extended hex form. -/
theorem C5_counterexample :
    formatLunID (.int 300) ≠ .ok (.str "0x002c000000000000") ∧
      formatLunID (.int 300) = .ok (.str "0x012c000000000000") ∧
      formatLunID (.str "300") = .ok (.int 300) := by
  refine ⟨?_, rfl, rfl⟩
  intro h
  have h2 : formatLunID (.int 300) = .ok (.str "0x012c000000000000") := rfl
  rw [h2] at h
  have := LunOut.str.inj (Except.ok.inj h)
  exact absurd this (by decide)

/-- C5 amended: an integer LUN below 256 maps to itself; an integer LUN
≥ 256 maps to `0x%04x%04x00000000` of its low and next 16 bits (so 300
maps to `"0x012c000000000000"`); a string LUN is accepted iff it parses
as an integer and the parsed integer is returned as-is, never the
extended hex form; 5 maps to 5, `"42"` to 42, and `"abc"` fails. -/
theorem C5_lun_normalization :
    (∀ n : Int, n < 256 → formatLunID (.int n) = .ok (.int n))
    ∧ (∀ n : Int, 256 ≤ n → formatLunID (.int n) =
        .ok (.str ("0x" ++ padHex4 (n.toNat &&& 0xffff)
          ++ padHex4 ((n.toNat >>> 16) &&& 0xffff) ++ "00000000")))
    ∧ formatLunID (.int 5) = .ok (.int 5)
    ∧ formatLunID (.int 300) = .ok (.str "0x012c000000000000")
    ∧ formatLunID (.str "42") = .ok (.int 42)
    ∧ (∃ e, formatLunID (.str "abc") = .error e)
    ∧ (∀ s i, goAtoi s = some i → formatLunID (.str s) = .ok (.int i))
    ∧ (∀ s, goAtoi s = none → ∃ e, formatLunID (.str s) = .error e) := by
  refine ⟨?_, ?_, rfl, rfl, rfl,
    ⟨"lun_id cannot convert to int: abc", rfl⟩, ?_, ?_⟩
  · intro n hn
    simp only [formatLunID, if_pos hn]
  · intro n hn
    simp only [formatLunID]
    rw [if_neg (show ¬n < 256 by omega)]
  · intro s i h
    simp only [formatLunID, h]
  · intro s h
    refine ⟨"lun_id cannot convert to int: " ++ s, ?_⟩
    simp only [formatLunID, h]

/-- C5 witness: the amended theorem at 7, 300, and `"17"`. -/
theorem C5_lun_normalization_witness :
    formatLunID (.int 7) = .ok (.int 7) ∧
      formatLunID (.int 300) =
        .ok (.str ("0x" ++ padHex4 ((300 : Int).toNat &&& 0xffff)
          ++ padHex4 (((300 : Int).toNat >>> 16) &&& 0xffff)
          ++ "00000000")) ∧
      formatLunID (.str "17") = .ok (.int 17) :=
  ⟨C5_lun_normalization.1 7 (by decide),
   C5_lun_normalization.2.1 300 (by decide),
   C5_lun_normalization.2.2.2.2.2.2.1 "17" 17 (by decide)⟩

/-- C3 counterexample: when the real target of the used path is identical
to that of the candidate and lies directly under `/dev`
(`/dev/sda` resolving to itself), the claim predicts no flush, but
`RequiresFlush` returns true: its first disjunct fires on identical
real paths, and its `dir != "/dev"` test compares a trailing-slash
directory (`"/dev/"`) against `"/dev"`, which never matches. -/
theorem C3_counterexample :
    RequiresFlush envC3 "/dev/sda" "/dev/sda" false = .ok true ∧
      requiresFlushSpec envC3 "/dev/sda" "/dev/sda" false = .ok false := by
  exact ⟨rfl, rfl⟩

/-- C3 amended: `RequiresFlush` returns false whenever `pathUsed` is
empty or `wasMultipath` is true; otherwise, whenever both real-path
resolutions succeed, it returns true — the Go code computes the
directory part with `filepath.Split`, whose result always carries a
trailing separator and hence never equals `"/dev"`, so the
`dir != "/dev"` disjunct always holds (in particular flush is required
even when the real target of the used path is identical to that of the
candidate and resides directly under `/dev`). -/
theorem C3_requires_flush (f : String → Option String)
    (devicePath pathUsed : String) (wasMultipath : Bool) :
    ((pathUsed = "" ∨ wasMultipath = true) →
      RequiresFlush f devicePath pathUsed wasMultipath = .ok false)
    ∧ (∀ rPath rPathUsed, pathUsed ≠ "" → wasMultipath = false →
        f devicePath = some rPath → f pathUsed = some rPathUsed →
        RequiresFlush f devicePath pathUsed wasMultipath = .ok true) := by
  constructor
  · intro h
    unfold RequiresFlush
    rw [if_pos h]
  · intro rPath rPathUsed hpu hwm hdp hpu2
    unfold RequiresFlush
    rw [if_neg (by simp [hpu, hwm])]
    rw [hdp, hpu2]
    have hdir : (goSplitDir rPathUsed != "/dev") = true := by
      simp [bne_iff_ne, goSplitDir_ne_dev rPathUsed]
    show Except.ok ((rPathUsed == rPath) || (goSplitDir rPathUsed != "/dev"))
      = Except.ok true
    rw [hdir, Bool.or_true]

/-- C3 witness: the amended theorem at an empty used path and at a
by-id path resolving (like the candidate) to `/dev/sda`. -/
theorem C3_requires_flush_witness :
    RequiresFlush envC3w "/dev/sda" "" false = .ok false ∧
      RequiresFlush envC3w "/dev/sda" "/dev/disk/by-id/x" false = .ok true :=
  ⟨(C3_requires_flush envC3w "/dev/sda" "" false).1 (Or.inl rfl),
   (C3_requires_flush envC3w "/dev/sda" "/dev/disk/by-id/x" false).2
     "/dev/sda" "/dev/sda" (by decide) rfl rfl rfl⟩

/-- C2 counterexample: with multipath enabled, a single candidate path
that exists, resolves, passes the raw-read validity probe, yields a WWN
and has its mapper symlink present — yet `DisconnectVolume` performs no
multipath flush for it (and no WWN-keyed flush for any path at all). -/
theorem C2_counterexample :
    DisconnectVolumeFlushes envC2 true [pathC2] = [] ∧
      envC2.checkValid pathC2 = true ∧
      envC2.pathExists ("/dev/disk/by-id/dm-uuid-mpath-3624a9") = true := by
  exact ⟨rfl, rfl, rfl⟩

/-- C2 amended: the flush branch of the `DisconnectVolume` loop is
guarded by `mPathPath != ""`, but `mPathPath` starts empty and is only
ever assigned inside that branch, so the branch is unreachable: no WWN
resolution and no multipath flush happens for any candidate path,
whatever the environment, multipath setting, or path list. -/
theorem C2_no_flush_ever (env : DisconnectEnv) (useMultipath : Bool)
    (volumePaths : List String) :
    DisconnectVolumeFlushes env useMultipath volumePaths = [] := by
  unfold DisconnectVolumeFlushes
  induction volumePaths with
  | nil => rfl
  | cons p rest ih =>
    simp only [disconnectLoop]
    have hg : (useMultipath && (("" : String) != "") && env.checkValid p)
        = false := by simp
    rw [hg]
    simp only [Bool.false_eq_true, if_false]
    cases env.getDeviceInfo (env.getName p) <;> simpa using ih

/-- C6: with two HBAs each resolving one narrow triple, the triple of the first
HBA is written twice (the write loop is nested inside the per-HBA
loop, so earlier `process` entries are re-written for every later HBA);
and an HBA that resolves nothing gets its wildcard triple written even
though a later HBA resolves a narrow triple — the wildcard fallback is
decided mid-loop, not after all HBAs. -/
theorem C6_rescan_writes :
    RescanHosts true
        [⟨"host4", [("2", "3", "1")], []⟩, ⟨"host5", [("2", "5", "1")], []⟩]
      = [("/sys/class/scsi_host/host4/scan", "2 3 1"),
         ("/sys/class/scsi_host/host4/scan", "2 3 1"),
         ("/sys/class/scsi_host/host5/scan", "2 5 1")]
    ∧ RescanHosts true
        [⟨"host6", [], ["7"]⟩, ⟨"host7", [("0", "1", "7")], []⟩]
      = [("/sys/class/scsi_host/host6/scan", "- - 7"),
         ("/sys/class/scsi_host/host6/scan", "- - 7"),
         ("/sys/class/scsi_host/host7/scan", "0 1 7")] := by
  exact ⟨rfl, rfl⟩

/-- C8: on a descriptor with malformed WWN/LUN cardinality (one WWN,
zero LUNs), `ConnectVolume` and `ExtendVolume` return the validation
error, but `DisconnectVolume` only logs it and then panics on an
unchecked type assertion over the nil normalized map; with a
non-numeric LUN all three return an error. -/
theorem C8_validation_outcomes :
    connectVolumeFront ["0000:05:00.3"] ["20210002AC00383D"] []
      = .err valErrMsg
    ∧ extendVolumeFront ["0000:05:00.3"] ["20210002AC00383D"] []
      = .err ("failed add targets to connection properties:" ++ valErrMsg)
    ∧ disconnectVolumeFront ["0000:05:00.3"] ["20210002AC00383D"] []
      = .panic "interface conversion on nil targets entry"
    ∧ disconnectVolumeFront ["0000:05:00.3"] ["20210002AC00383D"] ["abc"]
      = .err "failed get volume paths: lun_id cannot convert to int: abc"
    ∧ connectVolumeFront ["0000:05:00.3"] ["20210002AC00383D"] ["abc"]
      = .err "lun_id cannot convert to int: abc"
    ∧ extendVolumeFront ["0000:05:00.3"] ["20210002AC00383D"] ["abc"]
      = .err "failed get volume paths: lun_id cannot convert to int: abc" := by
  exact ⟨rfl, rfl, rfl, rfl, rfl, rfl⟩

/-- C9: on a `multipath -l` block whose header carries a leading action
keyword and which lists three member legs, `FindMultipathDevice`
recovers the mapper name (skipping the action keyword), the WWID from
the parenthesized group — or the mapper name when no group is present —
and exactly three legs with host/channel/id/lun split from the first
token and the leaf device from the second; and empty output (no
multipath grouping) returns success with no device. -/
theorem C9_multipath_parse :
    FindMultipathDevice peC9 (.ok sampleMpOut)
      = .ok (some
          { device := "/dev/mapper/mpath36"
            id := "3624a93709a738ed78583fd1200139"
            name := "mpath36"
            devices :=
              [{ device := "/dev/sdb", host := "3", channel := "0",
                 id := "0", lun := "1" },
               { device := "/dev/sdc", host := "4", channel := "0",
                 id := "0", lun := "1" },
               { device := "/dev/sdd", host := "5", channel := "0",
                 id := "0", lun := "1" }] })
    ∧ FindMultipathDevice peC9 (.ok sampleMpOut2)
      = .ok (some
          { device := "/dev/mapper/mpath37"
            id := "mpath37"
            name := "mpath37"
            devices :=
              [{ device := "/dev/sde", host := "3", channel := "0",
                 id := "0", lun := "2" },
               { device := "/dev/sdf", host := "4", channel := "0",
                 id := "0", lun := "2" },
               { device := "/dev/sdg", host := "5", channel := "0",
                 id := "0", lun := "2" }] })
    ∧ FindMultipathDevice peC9 (.ok "") = .ok none := by
  refine ⟨by decide, by decide, rfl⟩

/-- C7 counterexample: when no candidate is ever valid, the trace ends
with a rescan after the third (final) failed attempt — a rescan that is
not between a failed attempt and a next one, contradicting the claim
that rescans occur only between attempts. -/
theorem C7_counterexample :
    ((connectVolumeScan (fun _ _ => false) ["d1", "d2"]).1).getLast?
        = some (FCEvent.rescan 3) ∧
      rescanCount (connectVolumeScan (fun _ _ => false) ["d1", "d2"]).1
        = 3 := by
  exact ⟨rfl, rfl⟩

/-- C7 amended: within each attempt every candidate is checked (in a
failing attempt, all of them) before the rescan of that attempt; a valid
candidate on the first attempt makes `ConnectVolume` return it with
zero rescans; the trace begins with the checks of the first attempt, so no
rescan precedes them; and exhausting all three attempts yields the
device-not-found error — after a third rescan that follows the final
failed attempt. -/
theorem C7_scan_ordering (env : Nat → String → Bool) (devs : List String) :
    (∀ d, (checkDevs env 1 devs).2 = some d →
      (connectVolumeScan env devs).2 = .ok d ∧
        rescanCount (connectVolumeScan env devs).1 = 0)
    ∧ (∀ att, (checkDevs env att devs).2 = none →
        ((checkDevs env att devs).1).length = devs.length)
    ∧ ((connectVolumeScan env devs).1.take
          ((checkDevs env 1 devs).1).length = (checkDevs env 1 devs).1)
    ∧ ((checkDevs env 1 devs).2 = none →
        (checkDevs env 2 devs).2 = none →
        (checkDevs env 3 devs).2 = none →
        (connectVolumeScan env devs).2 =
            .error "fibre Channel volume device not found" ∧
          rescanCount (connectVolumeScan env devs).1 = 3) := by
  refine ⟨?_, ?_, ?_, ?_⟩
  · intro d h
    simp only [connectVolumeScan, DeviceScanAttemptsDefault, connectLoop, h]
    constructor
    · trivial
    · simp [rescanCount, List.filter_append, isRescanEv]
      simpa [rescanCount] using checkDevs_no_rescan env 1 devs
  · intro att
    exact checkDevs_none_all_checked env att devs
  · rcases h : (checkDevs env 1 devs).2 with _ | d
    · simp only [connectVolumeScan, DeviceScanAttemptsDefault, connectLoop, h]
      rw [List.take_append_of_le_length (by simp)]
      simp
    · simp only [connectVolumeScan, DeviceScanAttemptsDefault, connectLoop, h]
      rw [List.take_append_of_le_length (by simp)]
      simp
  · intro h1 h2 h3
    simp only [connectVolumeScan, DeviceScanAttemptsDefault, connectLoop,
      h1, h2, h3]
    constructor
    · trivial
    · have e1 := checkDevs_no_rescan env 1 devs
      have e2 := checkDevs_no_rescan env 2 devs
      have e3 := checkDevs_no_rescan env 3 devs
      simp only [rescanCount] at e1 e2 e3
      have f1 := List.length_eq_zero.mp e1
      have f2 := List.length_eq_zero.mp e2
      have f3 := List.length_eq_zero.mp e3
      simp [rescanCount, List.filter_append, List.filter_cons, f1, f2, f3,
        isRescanEv]

/-- C7 witness: a single candidate valid at the first attempt is
returned with no rescan. -/
theorem C7_scan_ordering_witness :
    (connectVolumeScan (fun _ d => d == "dA") ["dA"]).2 = .ok "dA" ∧
      rescanCount (connectVolumeScan (fun _ d => d == "dA") ["dA"]).1
        = 0 :=
  (C7_scan_ordering (fun _ d => d == "dA") ["dA"]).1 "dA" (by decide)

/-- C10: for lsblk output ending in a trailing newline, whose rows never
combine a name containing the device WWN with read-only flag 1,
`WaitForRW` returns an error (the empty final split line fails
`strconv.Atoi`) instead of the nil success meaning "not read-only"; and
for any access mode other than `"ro"` (so the guard at base.go line 43
lets it run), the 5-attempt write-readiness retry of
`discoverMPathDevice` exhausts on such output. -/
theorem C10_trailing_newline (s deviceWwn devicePath am : String)
    (mpr : Except String String)
    (hnm : ∀ l ∈ splitChar '\x0a' (s.toList ++ ['\x0a']),
      ¬rwRowMatches deviceWwn l)
    (ham : am ≠ "ro") :
    (∃ e, WaitForRW (.ok (s ++ "\x0a")) mpr deviceWwn devicePath
        = .error e)
    ∧ writeReadinessWait (some am) (.ok (s ++ "\x0a")) mpr deviceWwn
        devicePath = false := by
  have htl : (s ++ "\x0a").toList = s.toList ++ ['\x0a'] := by
    rw [string_toList_append]
    rfl
  have hsplit : splitChar '\x0a' (s ++ "\x0a").toList
      = splitChar '\x0a' s.toList ++ [[]] := by
    rw [htl, splitChar_concat_sep]
  have hnm' : ∀ l ∈ splitChar '\x0a' s.toList, ¬rwRowMatches deviceWwn l := by
    intro l hl
    refine hnm l ?_
    rw [← htl, hsplit]
    exact List.mem_append_left _ hl
  obtain ⟨e, he⟩ :=
    waitForRWLines_trailing_error mpr deviceWwn (splitChar '\x0a' s.toList)
      hnm'
  have hw : WaitForRW (.ok (s ++ "\x0a")) mpr deviceWwn devicePath
      = .error e := by
    simp only [WaitForRW, hsplit]
    exact he
  refine ⟨⟨e, hw⟩, ?_⟩
  simp only [writeReadinessWait]
  rw [if_pos (by simp [bne_iff_ne, ham])]
  exact RunWithRetry_const_false 5 _ (fun _ => by rw [hw]; rfl)

/-- C10 witness: `"sdb 0\n"` with a WWN matching no row and access mode
`"rw"`. -/
theorem C10_trailing_newline_witness :
    (∃ e, WaitForRW (.ok ("sdb 0" ++ "\x0a")) (.ok "")
        "3624a93709a738ed78583fd1200139" "/dev/sdb" = .error e)
    ∧ writeReadinessWait (some "rw") (.ok ("sdb 0" ++ "\x0a")) (.ok "")
        "3624a93709a738ed78583fd1200139" "/dev/sdb" = false :=
  C10_trailing_newline "sdb 0" "3624a93709a738ed78583fd1200139"
    "/dev/sdb" "rw" (.ok "") (by decide) (by decide)

/-- C1: a symlink-wait miss DOES abort: `FindMultipathDevicePath`
returns its not-found error on a miss and `discoverMPathDevice`
propagates it unchanged (base.go lines 17-20), so `ConnectVolume`
aborts; and since every successful `FindMultipathDevicePath` returns a
non-empty path, the `path == ""` fallback to the screen-scraped
`FindMultipathDevice` lookup (and the raw-device default) is dead code:
a success is always the symlink-wait path itself. -/
theorem C1_symlink_miss_aborts (pathExists : String → Bool)
    (evalSymlinks : String → Option String)
    (mpOutFor : String → Except String String) (accessMode : Option String)
    (lsblk mpr : Except String String) (deviceWwn deviceName : String) :
    (pathExists ("/dev/disk/by-id/dm-uuid-mpath-" ++ deviceWwn) = false →
      pathExists ("/dev/mapper/" ++ deviceWwn) = false →
      discoverMPathDevice pathExists evalSymlinks mpOutFor accessMode
          lsblk mpr deviceWwn deviceName
        = .error ("couldnt find a valid multipath device path for "
            ++ deviceWwn))
    ∧ (∀ p, FindMultipathDevicePath pathExists deviceWwn = .ok p →
        discoverMPathDevice pathExists evalSymlinks mpOutFor accessMode
            lsblk mpr deviceWwn deviceName = .ok (p, deviceWwn)) := by
  constructor
  · intro h1 h2
    have hf : FindMultipathDevicePath pathExists deviceWwn
        = .error ("couldnt find a valid multipath device path for "
            ++ deviceWwn) := by
      simp [FindMultipathDevicePath, WaitForPath_false _ _ h1,
        WaitForPath_false _ _ h2]
    simp [discoverMPathDevice, hf]
  · intro p hp
    have hne := FindMultipathDevicePath_ok_ne pathExists deviceWwn p hp
    simp [discoverMPathDevice, hp, hne]

/-- C1 witness: with an empty filesystem the symlink wait misses and
discovery returns the not-found error; with the mapper symlink present
the symlink-wait path itself is returned. -/
theorem C1_symlink_miss_aborts_witness :
    discoverMPathDevice (fun _ => false) (fun _ => none) (fun _ => .ok "")
        (some "rw") (.ok "") (.ok "") "w1" "/dev/sdb"
      = .error "couldnt find a valid multipath device path for w1"
    ∧ discoverMPathDevice (fun p => p == "/dev/mapper/w1")
        (fun _ => none) (fun _ => .ok "") (some "rw") (.ok "") (.ok "")
        "w1" "/dev/sdb"
      = .ok ("/dev/mapper/w1", "w1") :=
  ⟨(C1_symlink_miss_aborts (fun _ => false) (fun _ => none)
      (fun _ => .ok "") (some "rw") (.ok "") (.ok "") "w1"
      "/dev/sdb").1 rfl rfl,
   (C1_symlink_miss_aborts (fun p => p == "/dev/mapper/w1")
      (fun _ => none) (fun _ => .ok "") (some "rw") (.ok "") (.ok "")
      "w1" "/dev/sdb").2 "/dev/mapper/w1" (by decide)⟩

end OsBrick
